import Mathlib

/-
Verification of the PIC16B course-notebook repository.

The repository consists of Jupyter notebooks (an agent-based-modeling
lecture, a SQL lecture, a TensorFlow text-generation lecture, and a
performance lecture) plus a Sass stylesheet.  The Python functions and
classes defined by the notebooks are shallowly embedded below:

  - Python `str` values are embedded as `List Char`;
  - Python `dict` values (as used by the counting functions) are embedded
    as association lists with Python update/lookup semantics;
  - Python floats (`random.random()`, `np.mean`, `homophily`) are
    idealised as rationals `ℚ`, with `np.mean []` (which is `NaN` in
    NumPy) embedded as `none`;
  - library calls whose internals live outside the repository (pandas
    DataFrame methods, the mesa grid) are abstracted as function
    parameters, while every piece of control flow written in the
    notebooks themselves is translated literally.
-/

/-! ## Performance notebook: the four counting functions

Python dictionaries, as used by `count_list` .. `count_list4`, are
embedded as association lists: `dictUpdate` is `out.update({k : v})`
(or equivalently `out[k] = v`), which overwrites an existing key in
place and otherwise appends; `dictGet` is lookup. -/

/-- Lookup in an embedded Python dict: `d[x]` as an `Option`. -/
def dictGet {α : Type} [DecidableEq α] : List (α × Nat) → α → Option Nat
  | [], _ => none
  | (k, v) :: rest, x => if x = k then some v else dictGet rest x

/-- Setting a key of an embedded Python dict: `d[k] = v`
(also `d.update({k : v})`). -/
def dictUpdate {α : Type} [DecidableEq α] : List (α × Nat) → α → Nat → List (α × Nat)
  | [], k, v => [(k, v)]
  | (k', v') :: rest, k, v =>
    if k = k' then (k', v) :: rest else (k', v') :: dictUpdate rest k v

/-- Embedding of `count_list(L)` from the performance notebook:
`out = {}`; `for i in L: out.update({i : L.count(i)})`; `return out`. -/
def count_list {α : Type} [DecidableEq α] (L : List α) : List (α × Nat) :=
  L.foldl (fun out i => dictUpdate out i (L.count i)) []

/-- Embedding of `count_list2(L)`: the same loop body run over `set(L)`.
Python set iteration order is unspecified; it is determinised here as
`L.dedup`, which carries the same membership. -/
def count_list2 {α : Type} [DecidableEq α] (L : List α) : List (α × Nat) :=
  L.dedup.foldl (fun out i => dictUpdate out i (L.count i)) []

/-- Embedding of `count_list3(L)`:
`out = {}`; `for i in L: out[i] = out.get(i, 0) + 1`; `return out`. -/
def count_list3 {α : Type} [DecidableEq α] (L : List α) : List (α × Nat) :=
  L.foldl (fun out i => dictUpdate out i ((dictGet out i).getD 0 + 1)) []

/-- Embedding of `collections.Counter(L)` (library code, modelled from its
documented behaviour: it tallies occurrences exactly as the incrementing
loop of `count_list3` does, keys in first-encounter order). -/
def pyCounter {α : Type} [DecidableEq α] (L : List α) : List (α × Nat) :=
  L.foldl (fun out i => dictUpdate out i ((dictGet out i).getD 0 + 1)) []

/-- Embedding of `count_list4(L) = dict(Counter(L))`; `dict(...)` copies
the entries of the counter. -/
def count_list4 {α : Type} [DecidableEq α] (L : List α) : List (α × Nat) :=
  pyCounter L

/-! ## TensorFlow notebook: the `split` data-preparation function -/

/-- Embedding of Python `range(0, stop, step)` for a positive `step`:
the list `[0, step, 2*step, ...)` of values below `stop`. -/
def pyRange (stop : Int) (step : Nat) : List Nat :=
  (List.range (if stop ≤ 0 then 0 else (stop.toNat + step - 1) / step)).map
    (fun k => k * step)

/-- Embedding of `split(raw_text, max_len, step_size)` from the
text-generation notebook.  The enclosing global `text` is passed
explicitly as the first argument.  The body is

  `for i in range(0, len(text) - max_len, step_size):`
  `    lines.append(text[i:i+max_len])`
  `    next_chars.append(text[i+max_len])`

`range` with a zero step raises `ValueError`, embedded as `none`.
Every index `i + max_len` reached by the loop is in bounds, so the
default of `getD` is never consulted. -/
def split (text raw_text : List Char) (max_len step_size : Nat) :
    Option (List (List Char) × List Char) :=
  if step_size = 0 then none
  else
    some ((pyRange ((text.length : Int) - (max_len : Int)) step_size).foldl
      (fun acc i =>
        (acc.1 ++ [(text.drop i).take max_len], acc.2 ++ [text.getD (i + max_len) ' ']))
      ([], []))

/-! ## Agent-based-modeling notebook: the Schelling classes

The mesa grid and scheduler are library code; they enter the embedding
as abstract parameters (`neighborTypes` for `grid.neighbor_iter`,
`moveToEmpty` for `grid.move_to_empty`).  Everything else below is a
literal translation of the notebook code. -/

/-- Embedding of `np.mean` on a Boolean comprehension: the fraction of
`True` entries as a rational, and `none` for the empty list (NumPy
yields `NaN` there). -/
def npMean (xs : List Bool) : Option ℚ :=
  if xs.isEmpty then none else some ((xs.count true : ℚ) / (xs.length : ℚ))

/-- Embedding of the body of `SchellingAgent.step`, returning whether the
agent relocates.  The source computes
`pct_similar_neighbors = np.mean([self.type == other.type for other in
self.model.grid.neighbor_iter(self.pos)])` and relocates when
`pct_similar_neighbors < self.homophily`; a `NaN` mean compares `False`.
`neighborTypes` stands for the types yielded by `neighbor_iter`. -/
def stepMoves (agentType : String) (homophily : ℚ) (neighborTypes : List String) : Bool :=
  match npMean (neighborTypes.map (fun other => decide (agentType = other))) with
  | none => false
  | some pct => decide (pct < homophily)

/-- The instance attributes a `SchellingAgent` carries: exactly the
fields its `__init__` assigns (`self.pos`, `self.type`,
`self.homophily`). -/
structure SchellingAgentData where
  pos : Nat × Nat
  type : String
  homophily : ℚ
deriving DecidableEq

/-- Embedding of `SchellingAgent.__init__(pos, agent_type, homophily,
model)`: each assignment stores the corresponding parameter unchanged. -/
def SchellingAgentInit (pos : Nat × Nat) (agent_type : String) (homophily : ℚ) :
    SchellingAgentData :=
  { pos := pos, type := agent_type, homophily := homophily }

/-- Embedding of `SchellingModel.step` over an abstract grid state `G`:
`self.moved = 0`, then the scheduler runs each agent's
`SchellingAgent.step`, which relocates the agent (`moveToEmpty`) and
increments `self.model.moved` exactly when its threshold check fires.
Returns the final grid and the final value of the `moved` attribute. -/
def modelStep {G : Type} (neighborTypes : G → SchellingAgentData → List String)
    (moveToEmpty : G → SchellingAgentData → G)
    (agents : List SchellingAgentData) (g : G) : G × Nat :=
  agents.foldl
    (fun st a =>
      if stepMoves a.type a.homophily (neighborTypes st.1 a)
      then (moveToEmpty st.1 a, st.2 + 1)
      else st)
    (g, 0)

/-- Independent specification: the agents that relocate during one model
step, tracking the grid as it evolves. -/
def movedAgents {G : Type} (neighborTypes : G → SchellingAgentData → List String)
    (moveToEmpty : G → SchellingAgentData → G) :
    List SchellingAgentData → G → List SchellingAgentData
  | [], _ => []
  | a :: rest, g =>
    if stepMoves a.type a.homophily (neighborTypes g a)
    then a :: movedAgents neighborTypes moveToEmpty rest (moveToEmpty g a)
    else movedAgents neighborTypes moveToEmpty rest g

/-- Two concrete agents for evaluating the embedded model step. -/
def demoAgents : List SchellingAgentData :=
  [SchellingAgentInit (0, 0) "triangle" (1/2), SchellingAgentInit (0, 1) "triangle" (1/2)]

/-- A concrete simulation state in which every queried neighbourhood
consists of two `triangle` agents. -/
def allTriangleNeighbors : Unit → SchellingAgentData → List String :=
  fun _ _ => ["triangle", "triangle"]

/-- A concrete simulation state in which every queried neighbourhood
consists of two `square` agents. -/
def allSquareNeighbors : Unit → SchellingAgentData → List String :=
  fun _ _ => ["square", "square"]

/-- A trivial relocation primitive on the degenerate grid state. -/
def trivialMove : Unit → SchellingAgentData → Unit := fun _ _ => ()

/-! ### `SchellingModel.__init__` and the in-scope `ToyAgent` -/

/-- The parameter names accepted by the in-scope `ToyAgent.__init__`
(besides `self`): `def __init__(self, pos, model)`. -/
def ToyAgentParams : List String := ["pos", "model"]

/-- The keyword arguments `SchellingModel.__init__` passes when it
constructs an agent: `ToyAgent(pos = ..., agent_type = ...,
homophily = ..., model = ...)`. -/
def schellingAgentCallKwargs : List String := ["pos", "agent_type", "homophily", "model"]

/-- The first keyword of a call that the callee does not accept, if any
(Python raises `TypeError` naming such a keyword). -/
def firstBadKwarg (params kwargs : List String) : Option String :=
  kwargs.find? (fun k => !(params.contains k))

/-- Result of running a Python constructor: normal completion or a
`TypeError` naming an unexpected keyword argument. -/
inductive PyInitResult where
  | ok
  | typeError (kw : String)
deriving DecidableEq

/-- The cell loop of `SchellingModel.__init__`: for each grid cell the
source draws `self.random.random()` and, when the draw is below
`density`, evaluates `ToyAgent(pos = (x, y), agent_type = agent_type,
homophily = homophily, model = self)` — a call whose keyword set is
checked against the in-scope `ToyAgent.__init__` signature. -/
def schellingInitLoop (density : ℚ) : List ℚ → PyInitResult
  | [] => .ok
  | d :: rest =>
    if d < density then
      match firstBadKwarg ToyAgentParams schellingAgentCallKwargs with
      | some kw => .typeError kw
      | none => schellingInitLoop density rest
    else schellingInitLoop density rest

/-- Embedding of `SchellingModel.__init__(width, height, density,
homophily)`.  `draws` lists the `self.random.random()` value drawn at
each of the `width * height` grid cells; `homophily` flows only into the
agent-constructor call modelled inside `schellingInitLoop`. -/
def SchellingModelInit (width height : Nat) (density homophily : ℚ)
    (draws : List ℚ) : PyInitResult :=
  schellingInitLoop density draws

/-! ## SQL notebook: `prepare_df`

The body of `prepare_df` is a straight-line sequence of six pandas
operations, each of which may raise; no statement of the repository is a
`try`/`except`, so the embedding composes the operations in the error
monad with bind only. -/

/-- Python exceptions that the underlying libraries may raise. -/
inductive PyErr where
  | valueError (msg : String)
  | typeError (msg : String)
  | keyError (msg : String)
deriving DecidableEq

/-- Sequencing of a list of fallible operations on a value: each
statement `df = f(df)` in turn, stopping at the first raised error. -/
def runPipeline {DF : Type} : List (DF → Except PyErr DF) → DF → Except PyErr DF
  | [], df => Except.ok df
  | f :: fs, df =>
    match f df with
    | Except.ok d => runPipeline fs d
    | Except.error e => Except.error e

/-- The six statements of `prepare_df`, in source order:
`df = df.set_index(keys=["ID", "Year"])`; `df = df.stack()`;
`df = df.reset_index()`; `df = df.rename(columns=...)`;
`df["Month"] = df["Month"].str[5:].astype(int)`;
`df["Temp"] = df["Temp"] / 100`.  Each pandas operation is an abstract
parameter, since its internals are library code. -/
def prepareSteps {DF : Type} (set_index stack_op reset_index rename_op month_fix
    temp_scale : DF → Except PyErr DF) : List (DF → Except PyErr DF) :=
  [set_index, stack_op, reset_index, rename_op, month_fix, temp_scale]

/-- Embedding of `prepare_df(df)`: the six statements run in order,
`return(df)` at the end. -/
def prepare_df {DF : Type} (set_index stack_op reset_index rename_op month_fix
    temp_scale : DF → Except PyErr DF) (df : DF) : Except PyErr DF :=
  runPipeline (prepareSteps set_index stack_op reset_index rename_op month_fix temp_scale) df

/-- A concrete successful pandas stage, for evaluating the pipeline. -/
def demoStageOk : Nat → Except PyErr Nat := fun n => Except.ok (n + 1)

/-- A concrete failing pandas stage: `astype(int)` raising
`ValueError` on a malformed month column. -/
def demoStageFail : Nat → Except PyErr Nat :=
  fun _ => Except.error (PyErr.valueError "invalid literal for int")

/-! ## Performance notebook: the multithreading illustration -/

/-- The read-only thread context a task observes:
`threading.current_thread().name` and `os.getpid()`. -/
structure ThreadCtx where
  threadName : String
  pid : Nat
deriving DecidableEq

/-- The mutable global namespace of the module.  Neither task assigns
any global or nonlocal variable, so the embedding threads this state
through explicitly to record that fact. -/
structure PyGlobals where
  vars : List (String × Int)
deriving DecidableEq

/-- Embedding of `task1()`: four `print` calls and no assignment.  The
result is the (unchanged) global state and the lines written to standard
output; the first two lines interpolate the thread name and the process
id via `str.format`. -/
def task1 (ctx : ThreadCtx) (g : PyGlobals) : PyGlobals × List String :=
  (g,
   ["Task 1 assigned to thread: " ++ ctx.threadName,
    "ID of process running task 1: " ++ toString ctx.pid,
    "To boldly go",
    ""])

/-- Embedding of `task2()`: four `print` calls and no assignment. -/
def task2 (ctx : ThreadCtx) (g : PyGlobals) : PyGlobals × List String :=
  (g,
   ["Task 2 assigned to thread: " ++ ctx.threadName,
    "ID of process running task 2: " ++ toString ctx.pid,
    "Where no one has gone before",
    ""])

/-- The statements of the driver cell, abstracted to the actions
relevant to thread lifecycle. -/
inductive PyAction where
  | printLine (s : String)
  | createThread (name : String)
  | startThread (name : String)
  | joinThread (name : String)
deriving DecidableEq

/-- The driver cell of the multithreading illustration, statement by
statement: two formatted prints and a blank print, the construction of
`t1` and `t2`, `t1.start()`, `t2.start()`, and finally `t1.join()`,
`t2.join()`. -/
def driverActions : List PyAction :=
  [PyAction.printLine "ID of process running main program: <pid>",
   PyAction.printLine "Main thread name: MainThread",
   PyAction.printLine "",
   PyAction.createThread "THREAD 1",
   PyAction.createThread "THREAD 2",
   PyAction.startThread "THREAD 1",
   PyAction.startThread "THREAD 2",
   PyAction.joinThread "THREAD 1",
   PyAction.joinThread "THREAD 2"]

/-- The threads started but not yet joined after a sequence of
actions runs. -/
def unjoined (acts : List PyAction) : List String :=
  acts.foldl
    (fun live a =>
      match a with
      | PyAction.startThread n => live ++ [n]
      | PyAction.joinThread n => live.erase n
      | _ => live)
    []

/-- Whether an action starts a thread. -/
def isStart : PyAction → Bool
  | PyAction.startThread _ => true
  | _ => false

/-- Whether an action is a thread start or a thread join. -/
def isStartOrJoin : PyAction → Bool
  | PyAction.startThread _ => true
  | PyAction.joinThread _ => true
  | _ => false

/-! ## Performance notebook: `reverse1` -/

/-- Embedding of Python `str.split()` with no argument: split on runs of
whitespace, discarding empty pieces. -/
def pySplit (s : List Char) : List (List Char) :=
  (s.splitOnP Char.isWhitespace).filter (fun w => !w.isEmpty)

/-- Independent specification of joining words with single spaces,
written directly from the meaning of `" ".join(...)`: no library call
and no code of the notebook appears in it. -/
def joinSpace : List (List Char) → List Char
  | [] => []
  | [w] => w
  | w :: x :: rest => w ++ ' ' :: joinSpace (x :: rest)

/-- Embedding of `reverse1(s)` from the performance notebook:
`words = s.split()`; `out = ""`; `n = len(words)`;
`for i in range(n): out += words[-i-1]; if i < n - 1: out += " "`;
`return out`.  (`words[-i-1]` is `words[n-1-i]` for `0 ≤ i < n`.) -/
def reverse1 (s : List Char) : List Char :=
  let words := pySplit s
  let n := words.length
  (List.range n).foldl
    (fun out i =>
      let out2 := out ++ words.getD (n - 1 - i) []
      if i < n - 1 then out2 ++ [' '] else out2)
    []

/-! # Theorems -/

/-- Lookup after a single Python dict assignment. -/
theorem dictGet_dictUpdate {α : Type} [DecidableEq α] (d : List (α × Nat)) (k x : α)
    (v : Nat) :
    dictGet (dictUpdate d k v) x = if x = k then some v else dictGet d x := by
  induction d with
  | nil => simp [dictUpdate, dictGet]
  | cons hd rest ih =>
    obtain ⟨k', v'⟩ := hd
    simp only [dictUpdate]
    by_cases hk : k = k'
    · subst hk
      by_cases hx : x = k <;> simp [dictGet, hx]
    · by_cases hx : x = k' <;> by_cases hx2 : x = k <;>
        simp_all [dictGet]

/-- Lookup after folding a fixed-value update over a list of keys,
as `count_list` and `count_list2` do. -/
theorem dictGet_foldl_const {α : Type} [DecidableEq α] (c : α → Nat) (M : List α) :
    ∀ (d : List (α × Nat)) (k : α),
      dictGet (M.foldl (fun out i => dictUpdate out i (c i)) d) k
        = if k ∈ M then some (c k) else dictGet d k := by
  induction M with
  | nil => intro d k; simp
  | cons i M ih =>
    intro d k
    rw [List.foldl_cons, ih, dictGet_dictUpdate]
    by_cases h1 : k ∈ M <;> by_cases h2 : k = i <;> simp [h1, h2]

/-- Lookup after folding the incrementing update of `count_list3` (and
of `collections.Counter`) over a list of keys. -/
theorem dictGet_foldl_incr {α : Type} [DecidableEq α] (M : List α) :
    ∀ (d : List (α × Nat)) (k : α),
      dictGet (M.foldl (fun out i => dictUpdate out i ((dictGet out i).getD 0 + 1)) d) k
        = if k ∈ M ∨ (dictGet d k).isSome
          then some ((dictGet d k).getD 0 + M.count k) else none := by
  induction M with
  | nil =>
    intro d k
    cases h : dictGet d k <;> simp [h]
  | cons i M ih =>
    intro d k
    rw [List.foldl_cons, ih, dictGet_dictUpdate]
    by_cases h2 : k = i
    · subst h2
      cases h : dictGet d k <;>
        simp [h, List.count_cons_self] <;> omega
    · rw [List.count_cons_of_ne h2]
      by_cases h1 : k ∈ M <;> simp [h1, h2, List.mem_cons]

/-- C4: for every list `L` of hashable values, `count_list(L)`,
`count_list2(L)`, `count_list3(L)` and `count_list4(L)` return equal
dictionaries, each mapping every distinct element of `L` to its number
of occurrences in `L` and containing no other keys: lookup at any key
`k` yields the count of `k` when `k` occurs in `L` and nothing
otherwise, identically for all four functions. -/
theorem count_list_variants_agree {α : Type} [DecidableEq α] (L : List α) (k : α) :
    dictGet (count_list L) k = (if k ∈ L then some (L.count k) else none)
    ∧ dictGet (count_list2 L) k = (if k ∈ L then some (L.count k) else none)
    ∧ dictGet (count_list3 L) k = (if k ∈ L then some (L.count k) else none)
    ∧ dictGet (count_list4 L) k = (if k ∈ L then some (L.count k) else none) := by
  refine ⟨?_, ?_, ?_, ?_⟩
  · rw [count_list, dictGet_foldl_const]
    simp [dictGet]
  · rw [count_list2, dictGet_foldl_const]
    simp [dictGet, List.mem_dedup]
  · rw [count_list3, dictGet_foldl_incr]
    simp [dictGet]
  · rw [count_list4, pyCounter, dictGet_foldl_incr]
    simp [dictGet]

/-- C2: `split` never reads its `raw_text` parameter.  For the same
enclosing global `text` and the same `max_len` and `step_size`, the
results for any two `raw_text` arguments are identical, because the
loop of the body iterates over the global `text`. -/
theorem split_ignores_raw_text (text raw_text1 raw_text2 : List Char)
    (max_len step_size : Nat) :
    split text raw_text1 max_len step_size = split text raw_text2 max_len step_size := rfl

/-- C6: the two worker tasks of the multithreading illustration share no
mutable state.  Each task leaves the global namespace exactly as it
found it (so neither writes a variable at all, in particular none the
other reads), and the lines a task prints do not depend on the global
namespace: printing to standard output is its only effect. -/
theorem tasks_share_no_mutable_state (ctx : ThreadCtx) (g g' : PyGlobals) :
    (task1 ctx g).1 = g ∧ (task2 ctx g).1 = g
    ∧ (task1 ctx g).2 = (task1 ctx g').2 ∧ (task2 ctx g).2 = (task2 ctx g').2 :=
  ⟨rfl, rfl, rfl, rfl⟩

/-- C7: in the driver cell every spawned thread is joined before the
program ends — after all statements run, the set of started-but-unjoined
threads is empty; every statement from the first `start` on is a
`start` or a `join`, so the main program runs nothing else while a
spawned thread is unjoined; and the final two statements are
`t1.join()` and `t2.join()`. -/
theorem driver_joins_all_spawned_threads :
    unjoined driverActions = []
    ∧ (driverActions.dropWhile (fun a => !(isStart a))).all isStartOrJoin = true
    ∧ driverActions.drop (driverActions.length - 2)
        = [PyAction.joinThread "THREAD 1", PyAction.joinThread "THREAD 2"] := by
  refine ⟨?_, ?_, ?_⟩ <;> rfl

/-- C8 counterexample: the text printed by `task1` is not the same in
every run — its first lines interpolate the executing thread name and
the process id, so two runs with different thread identity or process
produce different output. -/
theorem task_output_not_fixed_cex :
    (task1 { threadName := "THREAD 1", pid := 6724 } { vars := [] }).2
      ≠ (task1 { threadName := "MainThread", pid := 1 } { vars := [] }).2 := by
  decide

/-- C8 amended: only the trailing message of each worker task is fixed.
In every run, `task1` ends its output with `To boldly go` and a blank
line and `task2` with `Where no one has gone before` and a blank line
regardless of thread identity, process or global state, while the first
two printed lines carry the current thread name and the process id. -/
theorem task_fixed_message_suffix (c c' : ThreadCtx) (g g' : PyGlobals) :
    ((task1 c g).2).drop 2 = ["To boldly go", ""]
    ∧ ((task2 c g).2).drop 2 = ["Where no one has gone before", ""]
    ∧ ((task1 c g).2).drop 2 = ((task1 c' g').2).drop 2
    ∧ ((task2 c g).2).drop 2 = ((task2 c' g').2).drop 2 :=
  ⟨rfl, rfl, rfl, rfl⟩

/-- C1 counterexample: the relocation decision of the agent-based
simulation is computed by repository code, not by the imported library.
With the library-provided neighbourhood held fixed at one `square` and
one `triangle` neighbour, the repository-defined `SchellingAgent.step`
body decides not to relocate a `triangle` agent of homophily `1/2` and
to relocate one of homophily `3/4`: the threshold comparison that flips
this outcome is its own code. -/
theorem schelling_threshold_in_repo_cex :
    stepMoves "triangle" (1/2) ["square", "triangle"] = false
    ∧ stepMoves "triangle" (3/4) ["square", "triangle"] = true := by
  constructor <;> simp [stepMoves, npMean] <;> norm_num

/-- C1 amended: the grid mechanics (`neighbor_iter`, `move_to_empty`)
are the imported library, but the happiness threshold check itself is
performed by the repository-defined `SchellingAgent.step`: for a
nonempty neighbourhood it relocates the agent exactly when the fraction
of neighbours of its own type is below its homophily. -/
theorem stepMoves_iff_below_homophily (t : String) (q : ℚ) (ns : List String)
    (hne : ns ≠ []) :
    stepMoves t q ns = true ↔ (ns.count t : ℚ) / (ns.length : ℚ) < q := by
  have hcount : ∀ l : List String,
      (l.map (fun other => decide (t = other))).count true = l.count t := by
    intro l
    induction l with
    | nil => rfl
    | cons a l ih =>
      by_cases hta : t = a
      · subst hta
        simp [List.count_cons, ih]
      · simp [List.count_cons, ih, hta]
  have hisEmpty : (ns.map (fun other => decide (t = other))).isEmpty = false := by
    cases ns with
    | nil => exact absurd rfl hne
    | cons a l => rfl
  unfold stepMoves npMean
  simp [hisEmpty, hcount, decide_eq_true_iff]

/-- Witness for the amended C1 statement at a concrete agent and
neighbourhood. -/
theorem stepMoves_iff_witness :
    stepMoves "triangle" (3/4) ["square", "triangle"] = true
      ↔ ((["square", "triangle"].count "triangle" : ℚ)
          / ((["square", "triangle"] : List String).length : ℚ) < 3/4) :=
  stepMoves_iff_below_homophily "triangle" (3/4) ["square", "triangle"] (by decide)

/-- C3: `SchellingModel.__init__` instantiates `ToyAgent`, not
`SchellingAgent`, passing keywords `pos`, `agent_type`, `homophily`,
`model` to an `__init__` that accepts only `pos` and `model`.  For every
grid size, density and homophily, as soon as one cell draw falls below
`density` the construction raises `TypeError` for the unexpected keyword
argument `agent_type`. -/
theorem schellingModelInit_typeError (width height : Nat) (density homophily : ℚ)
    (draws : List ℚ) (hhit : ∃ d ∈ draws, d < density) :
    SchellingModelInit width height density homophily draws
      = PyInitResult.typeError "agent_type" := by
  unfold SchellingModelInit
  induction draws with
  | nil => exact absurd hhit (by simp)
  | cons d rest ih =>
    obtain ⟨x, hx, hxd⟩ := hhit
    rw [schellingInitLoop]
    by_cases hd : d < density
    · rw [if_pos hd]
      rfl
    · rw [if_neg hd]
      rcases List.mem_cons.mp hx with h | h
      · exact absurd (h ▸ hxd) hd
      · exact ih ⟨x, h, hxd⟩

/-- Witness for C3: a 1×1 grid whose single draw falls below the
density. -/
theorem schellingModelInit_typeError_witness :
    SchellingModelInit 1 1 1 (1/2) [1/2] = PyInitResult.typeError "agent_type" :=
  schellingModelInit_typeError 1 1 1 (1/2) [1/2] ⟨1/2, by norm_num⟩

/-- Splitting a statement pipeline: the first error of the prefix
decides the run, otherwise the suffix continues from the prefix
result. -/
theorem runPipeline_append {DF : Type} (l1 l2 : List (DF → Except PyErr DF)) (df : DF) :
    runPipeline (l1 ++ l2) df
      = match runPipeline l1 df with
        | Except.ok d => runPipeline l2 d
        | Except.error e => Except.error e := by
  induction l1 generalizing df with
  | nil => rfl
  | cons f fs ih =>
    simp only [List.cons_append, runPipeline]
    cases h : f df with
    | ok d => exact ih d
    | error e => rfl

/-- C5: no repository-defined function contains an exception handler,
so an error raised by a library call inside one propagates unchanged to
the caller.  Stated for `prepare_df`, the repository function with the
longest chain of fallible library calls: whichever of its six pandas
statements is the first to raise, and whatever it raises, the call
returns exactly that error. -/
theorem prepare_df_propagates_errors {DF : Type}
    (set_index stack_op reset_index rename_op month_fix temp_scale s :
      DF → Except PyErr DF)
    (pre post : List (DF → Except PyErr DF)) (df d : DF) (e : PyErr)
    (hsteps : prepareSteps set_index stack_op reset_index rename_op month_fix temp_scale
        = pre ++ s :: post)
    (hpre : runPipeline pre df = Except.ok d)
    (herr : s d = Except.error e) :
    prepare_df set_index stack_op reset_index rename_op month_fix temp_scale df
      = Except.error e := by
  rw [prepare_df, hsteps, runPipeline_append, hpre]
  simp [runPipeline, herr]

/-- Witness for C5: a pipeline whose third statement (the `astype(int)`
conversion) raises a `ValueError`; `prepare_df` surfaces it unchanged. -/
theorem prepare_df_propagates_errors_witness :
    prepare_df demoStageOk demoStageOk demoStageFail demoStageOk demoStageOk demoStageOk 0
      = Except.error (PyErr.valueError "invalid literal for int") :=
  prepare_df_propagates_errors demoStageOk demoStageOk demoStageFail demoStageOk
    demoStageOk demoStageOk demoStageFail [demoStageOk, demoStageOk]
    [demoStageOk, demoStageOk, demoStageOk] 0 2
    (PyErr.valueError "invalid literal for int") rfl rfl rfl

/-- The accumulation loop of `reverse1`, run over the word list it
indexes into, produces the accumulator followed by the words joined with
single spaces. -/
theorem range_foldl_joinSpace (r : List (List Char)) :
    ∀ acc : List Char,
      (List.range r.length).foldl
        (fun out i =>
          let out2 := out ++ r.getD i []
          if i < r.length - 1 then out2 ++ [' '] else out2)
        acc
      = acc ++ joinSpace r := by
  induction r with
  | nil => intro acc; simp [joinSpace]
  | cons w rs ih =>
    intro acc
    cases rs with
    | nil => simp [joinSpace, List.range_succ]
    | cons x rest =>
      rw [List.length_cons, List.range_succ_eq_map, List.foldl_cons, List.foldl_map]
      simp only [List.getD_cons_succ, List.getD_cons_zero, List.length_cons,
        Nat.add_sub_cancel, Nat.zero_lt_succ, if_true]
      refine (List.foldl_ext _
        (fun out i =>
          let out2 := out ++ (x :: rest).getD i []
          if i < (x :: rest).length - 1 then out2 ++ [' '] else out2) _ ?_).trans ?_
      · intro out i hi
        simp [Nat.succ_lt_succ_iff]
      · exact (ih (acc ++ w ++ [' '])).trans (by simp [joinSpace])

/-- C9 counterexample: a repository-defined function whose correctness
is specifiable and checkable with no reference to any external library.
`reverse1` is written in pure Python over built-in strings; at a
concrete input its result is checked against `joinSpace`, an
independent word-reversal specification that mentions no library and no
notebook code. -/
theorem reverse1_checkable_without_library_cex :
    reverse1 "To boldly go".toList = "go boldly To".toList
    ∧ joinSpace (pySplit "To boldly go".toList).reverse = "go boldly To".toList := by
  constructor <;> rfl

/-- C9 amended: the repository is mostly glue around libraries, but its
pure functions (`reverse1` among them, and the counting functions) are
original algorithms over built-in types with library-independent
specifications: `reverse1` reverses the word order of its input,
producing exactly the whitespace-split words of `s`, reversed and
joined by single spaces. -/
theorem reverse1_meets_word_reversal_spec (s : List Char) :
    reverse1 s = joinSpace (pySplit s).reverse := by
  have key := range_foldl_joinSpace ((pySplit s).reverse) []
  rw [List.length_reverse] at key
  simp only [List.nil_append] at key
  unfold reverse1
  rw [← key]
  apply List.foldl_ext
  intro out i hi
  rw [List.mem_range] at hi
  have hrev : (pySplit s).reverse[i]? = (pySplit s)[(pySplit s).length - 1 - i]? :=
    List.getElem?_reverse hi
  simp [hrev]

/-- The scheduler loop of `SchellingModel.step`, started at any value of
the `moved` counter, adds exactly the number of agents that relocate. -/
theorem modelStep_foldl_count {G : Type} (nt : G → SchellingAgentData → List String)
    (mte : G → SchellingAgentData → G) (agents : List SchellingAgentData) :
    ∀ (g : G) (m : Nat),
      (agents.foldl
        (fun st a =>
          if stepMoves a.type a.homophily (nt st.1 a)
          then (mte st.1 a, st.2 + 1) else st)
        (g, m)).2
      = m + (movedAgents nt mte agents g).length := by
  induction agents with
  | nil => intro g m; simp [movedAgents]
  | cons a rest ih =>
    intro g m
    rw [List.foldl_cons, movedAgents]
    by_cases h : stepMoves a.type a.homophily (nt g a)
    · rw [if_pos h, if_pos h, ih]
      simp [Nat.add_comm, Nat.add_assoc, Nat.add_left_comm]
    · rw [if_neg h, if_neg h, ih]

/-- C10 counterexample: the `moved` attribute that `SchellingModel` and
`SchellingAgent` maintain is not trivial parameter passing — its value
after a step is derived from the simulation state.  With the same two
agents, the same relocation primitive and the same degenerate grid, a
simulation state of all-similar neighbourhoods yields `moved = 0` while
one of all-dissimilar neighbourhoods yields `moved = 2`. -/
theorem model_moved_depends_on_state_cex :
    (modelStep allTriangleNeighbors trivialMove demoAgents ()).2 = 0
    ∧ (modelStep allSquareNeighbors trivialMove demoAgents ()).2 = 2 := by
  have hd : decide (("triangle" : String) = "square") = false := by decide
  have hne : ("triangle" : String) ≠ "square" := by decide
  constructor <;>
    norm_num [modelStep, demoAgents, SchellingAgentInit, allTriangleNeighbors,
      allSquareNeighbors, trivialMove, stepMoves, npMean, hd, hne, List.count_cons,
      List.count_nil]

/-- C10 amended: `SchellingAgent.__init__` stores its parameters
unchanged (trivial parameter passing), but the repository does add one
entity attribute carrying an invariant that relates it to the
simulation state: after `SchellingModel.step`, the `moved` counter
equals the number of scheduled agents whose step relocated them. -/
theorem modelStep_moved_counts_relocations {G : Type}
    (nt : G → SchellingAgentData → List String) (mte : G → SchellingAgentData → G)
    (agents : List SchellingAgentData) (g : G) (p : Nat × Nat) (t : String) (q : ℚ) :
    (SchellingAgentInit p t q).pos = p
    ∧ (SchellingAgentInit p t q).type = t
    ∧ (SchellingAgentInit p t q).homophily = q
    ∧ (modelStep nt mte agents g).2 = (movedAgents nt mte agents g).length := by
  refine ⟨rfl, rfl, rfl, ?_⟩
  simpa using modelStep_foldl_count nt mte agents g 0
